import Mathlib

/-!
Verification of the NephoScale compute driver
(`libcloud/compute/drivers/nephoscale.py`).

The driver is shallowly embedded: the transport layer is a parameter
(the envelope each remote call would return), so every driver operation
becomes a pure function of its inputs and of the transport results.
Remote-call counting is made explicit where a claim needs it.
-/

deriving instance DecidableEq for Except

namespace Nepho

/-- Modelled from the spec: the lifecycle-state enumeration
(`libcloud.compute.types.NodeState`, not under `src/`).  The spec uses
only RUNNING and UNKNOWN for this provider. -/
inductive NodeState where
  | running
  | unknown
deriving DecidableEq, Repr

/-- A node's `state` field as the dynamically-typed driver produces it:
either a `NodeState` member or a raw Python string (the driver passes
string literals such as `''` and `'4'` in some code paths). -/
inductive StateVal where
  | enum (s : NodeState)
  | str (s : String)
deriving DecidableEq, Repr

/-- `NODE_STATE_MAP`: the fixed lifecycle-state table of the source. -/
def NODE_STATE_MAP : List (String × NodeState) :=
  [("on", .running), ("off", .unknown), ("unknown", .unknown)]

/-- `NODE_STATE_MAP.get(data.get('power_status'), '4')`: dictionary lookup
with default the Python string `'4'`; a missing `power_status` key (`none`)
also falls to the default. -/
def stateLookup (power_status : Option String) : StateVal :=
  match power_status with
  | none => .str "4"
  | some s =>
    match NODE_STATE_MAP.lookup s with
    | some st => .enum st
    | none => .str "4"

/-- `VALID_RESPONSE_CODES = [httplib.OK, httplib.ACCEPTED, httplib.CREATED,
httplib.NO_CONTENT]`. -/
def VALID_RESPONSE_CODES : List Nat := [200, 202, 201, 204]

/-- `NephoscaleResponse.success`: membership of the HTTP status in the
whitelist. -/
def success (status : Nat) : Bool :=
  status ∈ VALID_RESPONSE_CODES

/-- The errors the response layer can surface, indexed by the body type
(the remote-error case carries the raw body). -/
inductive NephoError (β : Type) where
  | authenticationError (msg : String)
  | notFoundError (msg : String)
  | remoteError (body : β)
deriving DecidableEq, Repr

/-- What `NephoscaleResponse.parse_error` does: raise on 401 and 404,
otherwise return the body. -/
inductive ParseErrorResult (β : Type) where
  | raised (e : NephoError β)
  | body (b : β)
deriving DecidableEq, Repr

/-- `NephoscaleResponse.parse_error`, translated from the source:
401 raises the invalid-credentials error with message
`Authorization Failed`; 404 raises the not-found error; any other
status returns the body. -/
def parse_error (status : Nat) (body : β) : ParseErrorResult β :=
  if status = 401 then
    .raised (.authenticationError "Authorization Failed")
  else if status = 404 then
    .raised (.notFoundError "The resource you are looking for is not found.")
  else
    .body body

/-- Modelled from the spec: the base `Response` machinery
(`libcloud.common.base`, not under `src/`) consults `success` and on
failure surfaces either the error `parse_error` raised, or a generic
remote error carrying the body `parse_error` returned.  On success the
parsed body is passed through unchanged. -/
def normalize (status : Nat) (body : β) : Except (NephoError β) β :=
  if success status then
    .ok body
  else
    match parse_error status body with
    | .raised e => .error e
    | .body b => .error (.remoteError b)

/-- The provider's uniform response envelope for listing endpoints:
`{ "data": [...], "response": <code> }`, both fields possibly absent. -/
structure Envelope (α : Type) where
  data : Option (List α) := none
  response : Option Nat := none
deriving DecidableEq, Repr

/-! ### Raw wire records (one structure per entity kind, optional fields) -/

structure RawLocation where
  id : Option Int := none
  name : Option String := none
deriving DecidableEq, Repr

structure RawImage where
  id : Option Int := none
  friendly_name : Option String := none
  architecture : Option String := none
  disks : Option String := none
  billable_type : Option Int := none
  pcpus : Option Int := none
  cores : Option Int := none
  uri : Option String := none
  storage : Option Int := none
deriving DecidableEq, Repr

structure RawSize where
  id : Option Int := none
  friendly_name : Option String := none
  ram : Option Int := none
  storage : Option Int := none
deriving DecidableEq, Repr

/-- Nested `zone` record of a raw node. -/
structure RawZone where
  name : Option String := none
deriving DecidableEq, Repr

/-- Nested `image` record of a raw node. -/
structure RawImageRef where
  friendly_name : Option String := none
deriving DecidableEq, Repr

/-- Nested `service_type` record of a raw node. -/
structure RawServiceType where
  friendly_name : Option String := none
deriving DecidableEq, Repr

structure RawNode where
  id : Option String := none
  name : Option String := none
  power_status : Option String := none
  ipaddresses : Option String := none
  zone : Option RawZone := none
  image : Option RawImageRef := none
  service_type : Option RawServiceType := none
  hostname : Option String := none
  create_time : Option String := none
  network_ports : Option String := none
  is_console_enabled : Option Bool := none
deriving DecidableEq, Repr

/-- Raw key record; `_to_ssh_key` is the identity so the domain key is the
raw record itself. -/
structure RawKey where
  id : Option Int := none
  name : Option String := none
  key_group : Option Int := none
  key_type : Option Int := none
  uri : Option String := none
deriving DecidableEq, Repr

/-! ### Domain entities -/

structure NodeLocation where
  id : Option Int
  name : Option String
  country : String
deriving DecidableEq, Repr

structure ImageExtra where
  architecture : Option String
  disks : Option String
  billable_type : Option Int
  pcpus : Option Int
  cores : Option Int
  uri : Option String
  storage : Option Int
deriving DecidableEq, Repr

structure NodeImage where
  id : Option Int
  name : Option String
  extra : Option ImageExtra := none
deriving DecidableEq, Repr

structure NodeSize where
  id : Option Int
  name : Option String
  ram : Option Int
  disk : Option Int
  bandwidth : Option Int
  price : ℚ
deriving DecidableEq, Repr

structure NodeExtra where
  zone_data : Option RawZone
  zone : Option String
  image : Option String
  create_time : Option String
  network_ports : Option String
  is_console_enabled : Option Bool
  service_type : Option String
  hostname : Option String
deriving DecidableEq, Repr

structure Node where
  id : Option String
  name : Option String
  state : StateVal
  public_ips : List String
  private_ips : List String
  extra : Option NodeExtra := none
deriving DecidableEq, Repr

/-! ### Entity mapper -/

/-- `ip.replace(' ','')`: replacing every single-space occurrence by the
empty string, i.e. removing every space character. -/
def removeSpaces (s : String) : String :=
  String.mk (s.data.filter (fun c => c ≠ ' '))

/-- Splitting a character list at every comma, Python `split(',')`:
no separator collapsing, the empty input gives one empty token. -/
def splitCommaAux : List Char → List Char → List (List Char)
  | [], acc => [acc.reverse]
  | c :: rest, acc =>
    if c = ',' then acc.reverse :: splitCommaAux rest []
    else splitCommaAux rest (c :: acc)

/-- `ip_addresses.split(',')`. -/
def splitCommas (s : String) : List String :=
  (splitCommaAux s.data []).map String.mk

/-- Whether the first list is a leading segment of the second. -/
def isPrefixChars : List Char → List Char → Bool
  | [], _ => true
  | _ :: _, [] => false
  | p :: ps, c :: cs => p = c && isPrefixChars ps cs

/-- `s.startswith(pre)`. -/
def strStartsWith (s pre : String) : Bool :=
  isPrefixChars pre.data s.data

/-- Whether a cleaned address token is classified private:
`ip.startswith('10.') or ip.startswith('192.168')`. -/
def isPrivateIp (ip : String) : Bool :=
  strStartsWith ip "10." || strStartsWith ip "192.168"

/-- The address-splitting block of `_to_node`: an empty (falsy) string
yields two empty lists; otherwise split on commas, remove spaces from
each token, and append it to the private list when `isPrivateIp`, to
the public list otherwise.  Returns `(public_ips, private_ips)`. -/
def splitIps (ip_addresses : String) : List String × List String :=
  if ip_addresses = "" then
    ([], [])
  else
    (splitCommas ip_addresses).foldl
      (fun acc ip =>
        let ip := removeSpaces ip
        if isPrivateIp ip then (acc.1, acc.2 ++ [ip]) else (acc.1 ++ [ip], acc.2))
      ([], [])

/-- `NephoscaleNodeDriver._to_node`, translated from the source. -/
def _to_node (data : RawNode) : Node :=
  let state := stateLookup data.power_status
  let ips := splitIps (data.ipaddresses.getD "")
  let extra : NodeExtra :=
    { zone_data := data.zone
      zone := (data.zone.getD {}).name
      image := (data.image.getD {}).friendly_name
      create_time := data.create_time
      network_ports := data.network_ports
      is_console_enabled := data.is_console_enabled
      service_type := (data.service_type.getD {}).friendly_name
      hostname := data.hostname }
  { id := data.id
    name := data.name
    state := state
    public_ips := ips.1
    private_ips := ips.2
    extra := some extra }

/-- Python `str(...)` applied to an optional integer id (used for the
price-lookup key `str(value.get('id'))`). -/
def pyStr (v : Option Int) : String :=
  match v with
  | none => "None"
  | some n => toString n

/-- The per-record part of `list_sizes`: copy id/name/ram/storage,
bandwidth always `None`, price resolved through the external
price-lookup collaborator keyed by the stringified size id. -/
def _to_size (priceOf : String → ℚ) (value : RawSize) : NodeSize :=
  { id := value.id
    name := value.friendly_name
    ram := value.ram
    disk := value.storage
    bandwidth := none
    price := priceOf (pyStr value.id) }

/-- The ordering used by `sorted(sizes, key=lambda k: k.price)`. -/
def priceLE (a b : NodeSize) : Prop :=
  a.price ≤ b.price

instance : DecidableRel priceLE := fun a b =>
  inferInstanceAs (Decidable (a.price ≤ b.price))

instance : IsTotal NodeSize priceLE :=
  ⟨fun a b => le_total a.price b.price⟩

instance : IsTrans NodeSize priceLE :=
  ⟨fun _ _ _ hab hbc => le_trans hab hbc⟩

/-! ### Listing operations -/

/-- `list_locations`: map each raw record, injecting the fixed country
constant `US`. -/
def list_locations (env : Envelope RawLocation) : List NodeLocation :=
  (env.data.getD []).map fun value =>
    { id := value.id, name := value.name, country := "US" }

/-- `list_images`: map each raw record into a `NodeImage` with its
extension bag. -/
def list_images (env : Envelope RawImage) : List NodeImage :=
  (env.data.getD []).map fun value =>
    { id := value.id
      name := value.friendly_name
      extra := some
        { architecture := value.architecture
          disks := value.disks
          billable_type := value.billable_type
          pcpus := value.pcpus
          cores := value.cores
          uri := value.uri
          storage := value.storage } }

/-- `list_sizes`: map each raw record through `_to_size` and return the
result of `sorted(sizes, key=lambda k: k.price)`.  Python `sorted` is a
stable sort producing a non-decreasing order of the key, modelled by
`List.insertionSort` on `priceLE`. -/
def list_sizes (priceOf : String → ℚ) (env : Envelope RawSize) : List NodeSize :=
  List.insertionSort priceLE ((env.data.getD []).map (_to_size priceOf))

/-- `list_nodes`: map each raw record through `_to_node`. -/
def list_nodes (env : Envelope RawNode) : List Node :=
  (env.data.getD []).map _to_node

/-- `list_all_keys`: `_to_ssh_key` is the identity, so the result is the
raw data list, optionally filtered client-side on
`key.get('key_group','') == key_group` when the `key_group` argument is
truthy (a Python int is truthy exactly when nonzero). -/
def list_all_keys (key_group : Option Int) (env : Envelope RawKey) : List RawKey :=
  let keys := env.data.getD []
  match key_group with
  | none => keys
  | some g =>
    if g = 0 then keys
    else keys.filter fun key => key.key_group == some g

/-- `delete_ssh_key`: `result.get('response') in VALID_RESPONSE_CODES`;
an absent `response` field (`None`) is in no list of integers. -/
def delete_ssh_key (env : Envelope RawKey) : Bool :=
  match env.response with
  | some c => c ∈ VALID_RESPONSE_CODES
  | none => false

/-- `delete_password_key`: same final test as `delete_ssh_key`. -/
def delete_password_key (env : Envelope RawKey) : Bool :=
  match env.response with
  | some c => c ∈ VALID_RESPONSE_CODES
  | none => false

/-! ### Provisioning workflow (`create_node`) -/

/-- The keyword arguments of `create_node`; `none` models an absent key. -/
structure CreateArgs where
  name : Option String := none
  hostname : Option String := none
  size : Option NodeSize := none
  image : Option NodeImage := none
  server_key : Option String := none
  console_key : Option String := none

/-- The URL-encoded form the create request carries. -/
structure CreateForm where
  name : String
  hostname : String
  service_type : Option Int
  image : Option Int
  server_key : String
  console_key : String
deriving DecidableEq, Repr

/-- The error outcomes of `create_node`: the validation wrapper
(`Error on create node: ...`, raised before any remote call) and the
create-request wrapper (`Failed to create node ...`). -/
inductive CreateErr where
  | validation (msg : String)
  | createFailed (msg : String)
deriving DecidableEq, Repr

/-- The validation block of `create_node`: `name` falsy (absent or the
empty string) raises `Name cannot be blank`; hostname defaults to the
name only when the key is absent; an absent `size` raises
`Service type cannot be blank`; an absent `image` raises
`Image cannot be blank`; `server_key` and `console_key` default to the
empty string. -/
def validate_create (args : CreateArgs) : Except String CreateForm :=
  match args.name with
  | none => .error "Name cannot be blank"
  | some name =>
    if name = "" then .error "Name cannot be blank"
    else
      let hostname := args.hostname.getD name
      match args.size with
      | none => .error "Service type cannot be blank"
      | some size =>
        match args.image with
        | none => .error "Image cannot be blank"
        | some image =>
          .ok { name := name
                hostname := hostname
                service_type := size.id
                image := image.id
                server_key := args.server_key.getD ""
                console_key := args.console_key.getD "" }

/-- `LOGIN_ATTEMPTS = 20`: the fixed polling budget. -/
def LOGIN_ATTEMPTS : Nat := 20

/-- Modelled from the spec: the placeholder
`Node(id='', name=name, state='', public_ips='', private_ips='')`
built before polling; the `Node` base class (`libcloud.compute.base`,
not under `src/`) normalizes the falsy address arguments, so per the
spec the placeholder carries the caller-supplied name with empty id,
empty state and two empty address lists. -/
def placeholderNode (name : String) : Node :=
  { id := some ""
    name := some name
    state := .str ""
    public_ips := []
    private_ips := []
    extra := none }

/-- The polling loop of `create_node`: while attempts remain, call
`list_nodes` on the next listing response, keep the nodes whose `name`
equals the requested name, and return the first of them; with no match,
sleep, decrement and retry; with the budget exhausted, return the
placeholder.  `calls` counts the listing calls already made; the second
component of the result is the total number of listing calls. -/
def pollLoop (listings : Nat → Envelope RawNode) (name : String) :
    Nat → Nat → Node × Nat
  | 0, calls => (placeholderNode name, calls)
  | attempts + 1, calls =>
    match (list_nodes (listings calls)).filter (fun c => c.name == some name) with
    | [] => pollLoop listings name attempts (calls + 1)
    | c :: _ => (c, calls + 1)

/-- The outcome of a `create_node` run: its result (or error), the form
the create request carried (when one was issued), and how many create
and listing calls were performed. -/
structure CreateOutcome where
  result : Except CreateErr Node
  form : Option CreateForm
  createCalls : Nat
  listingCalls : Nat
deriving DecidableEq, Repr

/-- `create_node`, translated from the source.  `createResult` is the
transport outcome of the POST to `/server/cloud/` and `listings k` the
envelope of the `k`-th listing call (0-based).  Validation failures are
wrapped as `Error on create node: ...` and occur before any remote
call; a failing create request is wrapped as
`Failed to create node ...`; a successful create request starts the
polling loop with the fixed budget. -/
def create_node (args : CreateArgs) (createResult : Except String Unit)
    (listings : Nat → Envelope RawNode) : CreateOutcome :=
  match validate_create args with
  | .error e =>
    { result := .error (.validation ("Error on create node: " ++ e))
      form := none
      createCalls := 0
      listingCalls := 0 }
  | .ok form =>
    match createResult with
    | .error e =>
      { result := .error (.createFailed ("Failed to create node " ++ e))
        form := some form
        createCalls := 1
        listingCalls := 0 }
    | .ok _ =>
      let out := pollLoop listings form.name LOGIN_ATTEMPTS 0
      { result := .ok out.1
        form := some form
        createCalls := 1
        listingCalls := out.2 }

/-! ### Helper lemmas -/

lemma pollLoop_zero (listings : Nat → Envelope RawNode) (name : String) (calls : Nat) :
    pollLoop listings name 0 calls = (placeholderNode name, calls) := rfl

lemma pollLoop_succ (listings : Nat → Envelope RawNode) (name : String)
    (attempts calls : Nat) :
    pollLoop listings name (attempts + 1) calls =
      match (list_nodes (listings calls)).filter (fun c => c.name == some name) with
      | [] => pollLoop listings name attempts (calls + 1)
      | c :: _ => (c, calls + 1) := rfl

lemma pollLoop_succ_nomatch (listings : Nat → Envelope RawNode) (name : String)
    (attempts calls : Nat)
    (h : (list_nodes (listings calls)).filter (fun c => c.name == some name) = []) :
    pollLoop listings name (attempts + 1) calls = pollLoop listings name attempts (calls + 1) := by
  rw [pollLoop_succ, h]

lemma pollLoop_succ_match (listings : Nat → Envelope RawNode) (name : String)
    (attempts calls : Nat) (c : Node) (rest : List Node)
    (h : (list_nodes (listings calls)).filter (fun c => c.name == some name) = c :: rest) :
    pollLoop listings name (attempts + 1) calls = (c, calls + 1) := by
  rw [pollLoop_succ, h]

lemma pollLoop_exhausted (listings : Nat → Envelope RawNode) (name : String)
    (h : ∀ k, (list_nodes (listings k)).filter (fun c => c.name == some name) = []) :
    ∀ attempts calls,
      pollLoop listings name attempts calls = (placeholderNode name, calls + attempts) := by
  intro attempts
  induction attempts with
  | zero => intro calls; simp [pollLoop_zero]
  | succ n ih =>
    intro calls
    rw [pollLoop_succ_nomatch listings name n calls (h calls), ih (calls + 1)]
    have : calls + 1 + n = calls + (n + 1) := by omega
    rw [this]

lemma pollLoop_first_match (listings : Nat → Envelope RawNode) (name : String)
    (c : Node) (rest : List Node) :
    ∀ i attempts calls, i < attempts →
      (∀ j, j < i →
        (list_nodes (listings (calls + j))).filter (fun n => n.name == some name) = []) →
      (list_nodes (listings (calls + i))).filter (fun n => n.name == some name) = c :: rest →
      pollLoop listings name attempts calls = (c, calls + i + 1) := by
  intro i
  induction i with
  | zero =>
    intro attempts calls hlt _ hmatch
    match attempts, hlt with
    | a + 1, _ =>
      rw [pollLoop_succ_match listings name a calls c rest (by simpa using hmatch)]
  | succ j ih =>
    intro attempts calls hlt hnone hmatch
    match attempts, hlt with
    | a + 1, hlt =>
      have h0 : (list_nodes (listings calls)).filter (fun n => n.name == some name) = [] := by
        simpa using hnone 0 (Nat.succ_pos j)
      rw [pollLoop_succ_nomatch listings name a calls h0]
      have hrec := ih a (calls + 1) (by omega)
        (fun m hm => by
          have := hnone (m + 1) (by omega)
          simpa [Nat.add_assoc, Nat.add_comm 1 m] using this)
        (by
          have : calls + (j + 1) = calls + 1 + j := by omega
          rw [this] at hmatch
          exact hmatch)
      rw [hrec]
      have : calls + 1 + j + 1 = calls + (j + 1) + 1 := by omega
      rw [this]

lemma foldl_classify (l : List String) :
    ∀ pub priv : List String,
      l.foldl
        (fun acc ip =>
          let ip := removeSpaces ip
          if isPrivateIp ip then (acc.1, acc.2 ++ [ip]) else (acc.1 ++ [ip], acc.2))
        (pub, priv)
      = (pub ++ (l.map removeSpaces).filter (fun u => !(isPrivateIp u)),
         priv ++ (l.map removeSpaces).filter isPrivateIp) := by
  induction l with
  | nil => intro pub priv; simp
  | cons x xs ih =>
    intro pub priv
    simp only [List.foldl_cons, List.map_cons, List.filter_cons]
    cases hx : isPrivateIp (removeSpaces x) with
    | true => simpa [hx] using ih pub (priv ++ [removeSpaces x])
    | false => simpa [hx] using ih (pub ++ [removeSpaces x]) priv

lemma splitIps_eq_filters (s : String) (hs : s ≠ "") :
    splitIps s = (((splitCommas s).map removeSpaces).filter (fun u => !(isPrivateIp u)),
                  ((splitCommas s).map removeSpaces).filter isPrivateIp) := by
  unfold splitIps
  rw [if_neg hs]
  simpa using foldl_classify (splitCommas s) [] []

lemma filter_orderedInsert (p : ℚ) (x : NodeSize) :
    ∀ l : List NodeSize,
      (l.orderedInsert priceLE x).filter (fun s => decide (s.price = p))
        = if x.price = p then x :: l.filter (fun s => decide (s.price = p))
          else l.filter (fun s => decide (s.price = p)) := by
  intro l
  induction l with
  | nil =>
    by_cases hx : x.price = p <;> simp [hx]
  | cons b l ih =>
    simp only [List.orderedInsert]
    by_cases h : priceLE x b
    · rw [if_pos h]
      by_cases hx : x.price = p <;> by_cases hbp : b.price = p <;>
        simp [hx, hbp, List.filter_cons]
    · rw [if_neg h]
      by_cases hx : x.price = p
      · have hbp : ¬ b.price = p := by
          intro hbp
          exact h (le_of_eq (hx.trans hbp.symm))
        simp [List.filter_cons, hbp, ih, hx]
      · simp [List.filter_cons, ih, hx]

lemma filter_insertionSort (p : ℚ) :
    ∀ l : List NodeSize,
      (List.insertionSort priceLE l).filter (fun s => decide (s.price = p))
        = l.filter (fun s => decide (s.price = p)) := by
  intro l
  induction l with
  | nil => rfl
  | cons x l ih =>
    simp only [List.insertionSort]
    rw [filter_orderedInsert, ih, List.filter_cons]
    by_cases hx : x.price = p <;> simp [hx]

/-! ### Claims -/

/-- C1: when the create call succeeds but no listing response ever
contains an instance whose name equals the requested name, `create_node`
performs exactly 20 listing calls and then returns, without error, the
placeholder instance carrying the caller-supplied name with empty id,
empty state and empty public and private address lists. -/
theorem create_node_exhausted_placeholder
    (args : CreateArgs) (listings : Nat → Envelope RawNode) (name : String)
    (sz : NodeSize) (im : NodeImage)
    (hname : args.name = some name) (hne : name ≠ "")
    (hsz : args.size = some sz) (him : args.image = some im)
    (h : ∀ k, ∀ c ∈ list_nodes (listings k), c.name ≠ some name) :
    (create_node args (.ok ()) listings).result = .ok (placeholderNode name) ∧
    (create_node args (.ok ()) listings).listingCalls = 20 ∧
    placeholderNode name = { id := some "", name := some name, state := .str "",
                             public_ips := [], private_ips := [], extra := none } := by
  have hfil : ∀ k,
      (list_nodes (listings k)).filter (fun c => c.name == some name) = [] := by
    intro k
    rw [List.filter_eq_nil_iff]
    intro c hc
    simpa using h k c hc
  have hpoll : pollLoop listings name 20 0 = (placeholderNode name, 20) := by
    simpa using pollLoop_exhausted listings name hfil 20 0
  refine ⟨?_, ?_, rfl⟩ <;>
    simp [create_node, validate_create, hname, hsz, him, hne, hpoll, LOGIN_ATTEMPTS]

/-- C1 witness: with a concrete request and listings that never contain
the requested name, the run returns the placeholder after 20 listing
calls. -/
theorem create_node_exhausted_placeholder_witness :
    (create_node
      { name := some "staging-1"
        size := some { id := some 27, name := none, ram := none, disk := none,
                       bandwidth := none, price := 0 }
        image := some { id := some 49, name := none } }
      (.ok ()) (fun _ => {})).result = .ok (placeholderNode "staging-1") ∧
    (create_node
      { name := some "staging-1"
        size := some { id := some 27, name := none, ram := none, disk := none,
                       bandwidth := none, price := 0 }
        image := some { id := some 49, name := none } }
      (.ok ()) (fun _ => {})).listingCalls = 20 := by
  have h := create_node_exhausted_placeholder
    { name := some "staging-1"
      size := some { id := some 27, name := none, ram := none, disk := none,
                     bandwidth := none, price := 0 }
      image := some { id := some 49, name := none } }
    (fun _ => {}) "staging-1"
    { id := some 27, name := none, ram := none, disk := none,
      bandwidth := none, price := 0 }
    { id := some 49, name := none }
    rfl (by decide) rfl rfl
    (by intro k c hc; simp [list_nodes] at hc)
  exact ⟨h.1, h.2.1⟩

/-- C2: if the listing call of 0-based index `i` (the `(i+1)`-st call) is
the first whose result contains an instance whose name equals the
requested name, `create_node` returns the first such matching instance,
in listing order, immediately after that call: exactly `i + 1` listing
calls are issued. -/
theorem create_node_first_match
    (args : CreateArgs) (listings : Nat → Envelope RawNode) (name : String)
    (sz : NodeSize) (im : NodeImage) (i : Nat) (c : Node) (rest : List Node)
    (hname : args.name = some name) (hne : name ≠ "")
    (hsz : args.size = some sz) (him : args.image = some im)
    (hi : i < LOGIN_ATTEMPTS)
    (hnone : ∀ j, j < i →
      (list_nodes (listings j)).filter (fun n => n.name == some name) = [])
    (hmatch : (list_nodes (listings i)).filter (fun n => n.name == some name)
      = c :: rest) :
    (create_node args (.ok ()) listings).result = .ok c ∧
    (create_node args (.ok ()) listings).listingCalls = i + 1 := by
  have hpoll := pollLoop_first_match listings name c rest i LOGIN_ATTEMPTS 0 hi
    (fun j hj => by simpa using hnone j hj)
    (by simpa using hmatch)
  constructor <;>
    simp [create_node, validate_create, hname, hsz, him, hne, hpoll]

/-- C2 witness: with the first match appearing in the listing call of
index 2, the run returns that instance after exactly 3 listing calls. -/
theorem create_node_first_match_witness :
    (create_node
      { name := some "web-1"
        size := some { id := some 27, name := none, ram := none, disk := none,
                       bandwidth := none, price := 0 }
        image := some { id := some 49, name := none } }
      (.ok ())
      (fun k => if k = 2 then { data := some [{ name := some "web-1" }] }
                else { data := some [{ name := some "other" }] })).result
      = .ok (_to_node { name := some "web-1" }) ∧
    (create_node
      { name := some "web-1"
        size := some { id := some 27, name := none, ram := none, disk := none,
                       bandwidth := none, price := 0 }
        image := some { id := some 49, name := none } }
      (.ok ())
      (fun k => if k = 2 then { data := some [{ name := some "web-1" }] }
                else { data := some [{ name := some "other" }] })).listingCalls
      = 3 := by
  have h := create_node_first_match
    { name := some "web-1"
      size := some { id := some 27, name := none, ram := none, disk := none,
                     bandwidth := none, price := 0 }
      image := some { id := some 49, name := none } }
    (fun k => if k = 2 then { data := some [{ name := some "web-1" }] }
              else { data := some [{ name := some "other" }] })
    "web-1"
    { id := some 27, name := none, ram := none, disk := none,
      bandwidth := none, price := 0 }
    { id := some 49, name := none }
    2 (_to_node { name := some "web-1" }) []
    rfl (by decide) rfl rfl (by decide) (by decide) (by decide)
  exact ⟨h.1, h.2⟩

/-- C3: when the name, the size reference or the image reference is
absent, `create_node` fails with the validation error raised before any
remote call: the create call and the listing calls are never issued. -/
theorem create_node_missing_args_validation
    (args : CreateArgs) (createResult : Except String Unit)
    (listings : Nat → Envelope RawNode)
    (h : args.name = none ∨ args.size = none ∨ args.image = none) :
    (∃ msg, (create_node args createResult listings).result =
      .error (.validation msg)) ∧
    (create_node args createResult listings).createCalls = 0 ∧
    (create_node args createResult listings).listingCalls = 0 := by
  have hv : ∃ msg, validate_create args = .error msg := by
    rcases h with h | h | h
    · exact ⟨"Name cannot be blank", by simp [validate_create, h]⟩
    · cases hn : args.name with
      | none => exact ⟨"Name cannot be blank", by simp [validate_create, hn]⟩
      | some n =>
        by_cases hne : n = ""
        · exact ⟨"Name cannot be blank", by simp [validate_create, hn, hne]⟩
        · exact ⟨"Service type cannot be blank",
            by simp [validate_create, hn, hne, h]⟩
    · cases hn : args.name with
      | none => exact ⟨"Name cannot be blank", by simp [validate_create, hn]⟩
      | some n =>
        by_cases hne : n = ""
        · exact ⟨"Name cannot be blank", by simp [validate_create, hn, hne]⟩
        · cases hs : args.size with
          | none => exact ⟨"Service type cannot be blank",
              by simp [validate_create, hn, hne, hs]⟩
          | some s => exact ⟨"Image cannot be blank",
              by simp [validate_create, hn, hne, hs, h]⟩
  obtain ⟨msg, hmsg⟩ := hv
  exact ⟨⟨"Error on create node: " ++ msg, by simp [create_node, hmsg]⟩,
    by simp [create_node, hmsg], by simp [create_node, hmsg]⟩

/-- C3 witness: with every argument absent, `create_node` returns a
validation error having issued zero create calls and zero listing
calls. -/
theorem create_node_missing_args_validation_witness :
    (∃ msg, (create_node {} (.ok ()) (fun _ => {})).result =
      .error (.validation msg)) ∧
    (create_node {} (.ok ()) (fun _ => {})).createCalls = 0 ∧
    (create_node {} (.ok ()) (fun _ => {})).listingCalls = 0 :=
  create_node_missing_args_validation {} (.ok ()) (fun _ => {}) (Or.inl rfl)

/-- C4: the lifecycle-state table maps `on` to RUNNING and `off` and
`unknown` to UNKNOWN, and no input outside the table ever yields
RUNNING; however, an input outside the table (or an absent
`power_status`) yields the Python string `'4'` (the numeric value of
UNKNOWN as a string), which is a different value from the UNKNOWN state
member. -/
theorem to_node_unmapped_state_is_string_four :
    (_to_node { power_status := some "suspended" }).state = .str "4" ∧
    (_to_node { power_status := none }).state = .str "4" ∧
    StateVal.str "4" ≠ StateVal.enum NodeState.unknown ∧
    StateVal.str "4" ≠ StateVal.enum NodeState.running ∧
    (_to_node { power_status := some "on" }).state = .enum .running ∧
    (_to_node { power_status := some "off" }).state = .enum .unknown ∧
    (_to_node { power_status := some "unknown" }).state = .enum .unknown := by
  decide

/-- C5: the address classification of `_to_node` is a pure function of
the raw comma-separated address string: every token beginning, after
space removal, with `10.` or `192.168` lands in the private list and
every other token in the public list, in listing order; an empty or
absent address string yields two empty lists. -/
theorem to_node_address_classification (s : String) (r : RawNode) :
    (s ≠ "" → splitIps s =
      (((splitCommas s).map removeSpaces).filter (fun u => !(isPrivateIp u)),
       ((splitCommas s).map removeSpaces).filter isPrivateIp)) ∧
    splitIps "" = ([], []) ∧
    (r.ipaddresses = none →
      (_to_node r).public_ips = [] ∧ (_to_node r).private_ips = []) ∧
    (_to_node r).public_ips = (splitIps (r.ipaddresses.getD "")).1 ∧
    (_to_node r).private_ips = (splitIps (r.ipaddresses.getD "")).2 := by
  refine ⟨fun hs => splitIps_eq_filters s hs, rfl, fun h => ?_, rfl, rfl⟩
  constructor <;> simp [_to_node, h, splitIps]

/-- C5 witness: the example string of the spec splits into one public
and one private address, and a record with no address string yields two
empty lists. -/
theorem to_node_address_classification_witness :
    splitIps "198.51.100.7, 10.0.0.5" = (["198.51.100.7"], ["10.0.0.5"]) ∧
    (_to_node {}).public_ips = [] ∧ (_to_node {}).private_ips = [] := by
  have h := to_node_address_classification "198.51.100.7, 10.0.0.5" {}
  refine ⟨?_, (h.2.2.1 rfl).1, (h.2.2.1 rfl).2⟩
  rw [h.1 (by decide)]
  rfl

/-- C6: `list_sizes` returns the size catalog sorted non-decreasing by
resolved price, and the sort is stable: for every price, the entries of
that price appear exactly as in the mapped provider order. -/
theorem list_sizes_sorted_stable (priceOf : String → ℚ) (env : Envelope RawSize) :
    List.Sorted priceLE (list_sizes priceOf env) ∧
    ∀ p : ℚ, (list_sizes priceOf env).filter (fun s => decide (s.price = p)) =
      ((env.data.getD []).map (_to_size priceOf)).filter
        (fun s => decide (s.price = p)) := by
  constructor
  · exact List.sorted_insertionSort priceLE _
  · intro p
    exact filter_insertionSort p _

/-- C7: the response normalizer classifies success by the whitelist
`{200, 201, 202, 204}` exactly; it surfaces the authentication error on
status 401 and the not-found error on status 404, and returns the
parsed body unchanged on status 200. -/
theorem normalize_classification (β : Type) (b : β) (s : Nat)
    (env : Envelope RawNode) :
    (success s = true ↔ (s = 200 ∨ s = 201 ∨ s = 202 ∨ s = 204)) ∧
    normalize 401 b = .error (.authenticationError "Authorization Failed") ∧
    normalize 404 b =
      .error (.notFoundError "The resource you are looking for is not found.") ∧
    normalize 200 env = .ok env := by
  refine ⟨?_, rfl, rfl, rfl⟩
  simp only [success, VALID_RESPONSE_CODES, List.mem_cons, List.not_mem_nil,
    or_false, decide_eq_true_eq]
  tauto

/-- C8: the delete-key operations return the boolean of the normalizer
success classification of the envelope response code: true exactly when
the code is in the whitelist, false otherwise, including when the
envelope carries no response code. -/
theorem delete_key_success_classification (env env2 : Envelope RawKey) :
    (delete_ssh_key env = true ↔
      ∃ c, env.response = some c ∧ success c = true) ∧
    (delete_password_key env2 = true ↔
      ∃ c, env2.response = some c ∧ success c = true) ∧
    delete_ssh_key { response := none } = false ∧
    delete_password_key { response := none } = false := by
  refine ⟨?_, ?_, rfl, rfl⟩
  · cases h : env.response with
    | none => simp [delete_ssh_key, h]
    | some c => simp [delete_ssh_key, h, success]
  · cases h : env2.response with
    | none => simp [delete_password_key, h]
    | some c => simp [delete_password_key, h, success]

/-- C9: on any raw node record, the mapper is total and each missing
optional field yields an absent or default value: absent nested zone,
image and service-type structures yield absent display names, an absent
address string yields two empty address lists, and an absent
`power_status` falls to the default state value. -/
theorem to_node_missing_optional_defaults (r : RawNode) :
    ∃ ex, (_to_node r).extra = some ex ∧
      (r.zone = none → ex.zone = none ∧ ex.zone_data = none) ∧
      (r.image = none → ex.image = none) ∧
      (r.service_type = none → ex.service_type = none) ∧
      (r.hostname = none → ex.hostname = none) ∧
      (r.create_time = none → ex.create_time = none) ∧
      (r.network_ports = none → ex.network_ports = none) ∧
      (r.is_console_enabled = none → ex.is_console_enabled = none) ∧
      (r.power_status = none → (_to_node r).state = .str "4") ∧
      (r.ipaddresses = none →
        (_to_node r).public_ips = [] ∧ (_to_node r).private_ips = []) := by
  refine ⟨_, rfl, ?_, ?_, ?_, ?_, ?_, ?_, ?_, ?_, ?_⟩ <;> intro h <;>
    simp [_to_node, h, stateLookup, splitIps]

/-- C9 witness: the all-absent record maps without failure to an entity
with the default state, empty address lists and absent display names. -/
theorem to_node_missing_optional_defaults_witness :
    (_to_node {}).state = .str "4" ∧ (_to_node {}).public_ips = [] ∧
    (_to_node {}).private_ips = [] ∧
    ∃ ex, (_to_node {}).extra = some ex ∧ ex.zone = none ∧ ex.image = none := by
  obtain ⟨ex, hex, hzone, himg, hsvc, hhost, hct, hnp, hcon, hps, hips⟩ :=
    to_node_missing_optional_defaults {}
  exact ⟨hps rfl, (hips rfl).1, (hips rfl).2, ex, hex, (hzone rfl).1, himg rfl⟩

/-- C10: a successful envelope with an absent `data` field makes every
listing operation return the empty list rather than fail, and the
polling loop of `create_node` treats such an empty listing as a missing
match and continues with the next attempt. -/
theorem listings_absent_data_empty
    (envL : Envelope RawLocation) (envI : Envelope RawImage)
    (envS : Envelope RawSize) (envN : Envelope RawNode) (envK : Envelope RawKey)
    (priceOf : String → ℚ) (kg : Option Int)
    (listings : Nat → Envelope RawNode) (name : String) (attempts calls : Nat)
    (hL : envL.data = none) (hI : envI.data = none) (hS : envS.data = none)
    (hN : envN.data = none) (hK : envK.data = none)
    (hlist : (listings calls).data = none) :
    list_locations envL = [] ∧ list_images envI = [] ∧
    list_sizes priceOf envS = [] ∧ list_nodes envN = [] ∧
    list_all_keys kg envK = [] ∧
    pollLoop listings name (attempts + 1) calls =
      pollLoop listings name attempts (calls + 1) := by
  refine ⟨?_, ?_, ?_, ?_, ?_, ?_⟩
  · simp [list_locations, hL]
  · simp [list_images, hI]
  · simp [list_sizes, hS, List.insertionSort]
  · simp [list_nodes, hN]
  · cases kg <;> simp [list_all_keys, hK]
  · apply pollLoop_succ_nomatch
    simp [list_nodes, hlist]

/-- C10 witness: concrete envelopes with absent data yield empty lists,
and a polling step over such a listing continues to the next attempt. -/
theorem listings_absent_data_empty_witness :
    list_locations {} = [] ∧ list_images {} = [] ∧
    list_sizes (fun _ => 0) {} = [] ∧ list_nodes {} = [] ∧
    list_all_keys (some 4) {} = [] ∧
    pollLoop (fun _ => {}) "node-a" 1 0 = pollLoop (fun _ => {}) "node-a" 0 1 :=
  listings_absent_data_empty {} {} {} {} {} (fun _ => 0) (some 4)
    (fun _ => {}) "node-a" 0 0 rfl rfl rfl rfl rfl rfl

end Nepho
